import Mathlib

/-!
Verification development for the mass-scrapper repository.

The development shallowly embeds the quota/rotation layer of
`youtube_scraper.py` (key pool state, `_get_next_available_key`,
`_make_api_request`) and the collection/persistence layer of
`mass_scraper.py` (`calculate_engagement_rate`, `scrape_influencers_batch`,
the checkpoint/emergency saves of `mass_scrape_10k`,
`find_latest_checkpoint`, `signal_handler`).

Modelling conventions:
  * API keys are identified by their index in the `api_keys` list; the
    Python dict `key_usage` (keyed by the key string, all keys distinct)
    becomes a list of `KeyState` indexed by position.
  * `datetime.now()` becomes an explicit clock `now : Nat` counted in
    seconds; `timedelta(hours=1)` is `3600`.
  * The network is a script: a list of `ApiResponse` values consumed one
    per issued request.  A request "was issued" exactly when an element of
    the script was consumed.
  * Floats are modelled by `Rat`; the engagement computation uses only
    division, multiplication, `min` and `max`, which `Rat` models exactly.
-/

/-- Entry of `SCRAPING_CONFIG` in config.py: `'checkpoint_interval': 100`. -/
def checkpoint_interval : Nat := 100

/-- Entry of `SCRAPING_CONFIG` in config.py: `'emergency_save_interval': 50`. -/
def emergency_save_interval : Nat := 50

/-- Entry of `SCRAPING_CONFIG` in config.py: `'min_subscribers': 1000`. -/
def min_subscribers_config : Int := 1000

/-- Cool-down window of `_get_next_available_key`: `timedelta(hours=1)`
in seconds (config.py documents it as `'quota_reset_hours': 1`). -/
def quota_reset_seconds : Nat := 3600

/-- Local `max_retries = 3` of `_make_api_request` in youtube_scraper.py. -/
def max_retries : Nat := 3

/-- Entry of `OUTPUT_CONFIG` in config.py: `'max_description_length': 500`. -/
def max_description_length : Nat := 500

/-- Per-key usage record: one value of the `key_usage` dict in
`YouTubeInfluencerScraper.__init__` (youtube_scraper.py line 25):
`{'requests': 0, 'quota_exceeded': False, 'last_reset': datetime.now()}`. -/
structure KeyState where
  requests : Nat
  quota_exceeded : Bool
  last_reset : Nat
deriving Repr, DecidableEq

/-- Mutable scraper state of `YouTubeInfluencerScraper`: the per-key usage
records (indexed like `api_keys`), the rotation cursor
`current_key_index`, and the model clock standing for `datetime.now()`. -/
structure PoolState where
  usage : List KeyState
  current_key_index : Nat
  now : Nat
deriving Repr, DecidableEq

/-- Quota reset check inlined in `_get_next_available_key`
(youtube_scraper.py lines 46-52): if the key is flagged and more than one
hour has passed since `last_reset`, clear the flag and reset the counter
and the timestamp. -/
def tryReset (now : Nat) (ks : KeyState) : KeyState :=
  if ks.quota_exceeded = true ∧ quota_reset_seconds < now - ks.last_reset then
    { requests := 0, quota_exceeded := false, last_reset := now }
  else ks

/-- Loop body of `_get_next_available_key` (youtube_scraper.py lines 40-59),
with the `attempts < len(self.api_keys)` guard as fuel.  Each iteration
reads the key at the cursor, applies the reset check (the write to
`key_info` persists in the state), returns the key index if its flag is
clear, and otherwise advances the cursor modulo the pool size.  The
out-of-range read (impossible under the cursor invariant) returns `none`. -/
def getNextKeyAux : Nat → PoolState → Option Nat × PoolState
  | 0, s => (none, s)
  | attemptsLeft + 1, s =>
    match s.usage[s.current_key_index]? with
    | none => (none, s)
    | some ks =>
      let ks' := tryReset s.now ks
      let s' : PoolState := { s with usage := s.usage.set s.current_key_index ks' }
      if ks'.quota_exceeded = false then
        (some s.current_key_index, s')
      else
        getNextKeyAux attemptsLeft
          { s' with current_key_index := (s'.current_key_index + 1) % s'.usage.length }

/-- Model of `_get_next_available_key` (youtube_scraper.py lines 38-62):
scan at most `len(api_keys)` keys starting at the cursor. -/
def getNextAvailableKey (s : PoolState) : Option Nat × PoolState :=
  getNextKeyAux s.usage.length s

/-- Marking a key quota-exceeded, as done at youtube_scraper.py lines 89
and 98: `self.key_usage[api_key]['quota_exceeded'] = True`.  Note the code
does not touch `last_reset` or `requests` here. -/
def markExceeded (i : Nat) (s : PoolState) : PoolState :=
  match s.usage[i]? with
  | none => s
  | some ks => { s with usage := s.usage.set i { ks with quota_exceeded := true } }

/-- Recording a use, youtube_scraper.py line 83:
`self.key_usage[api_key]['requests'] += 1`. -/
def recordUse (i : Nat) (s : PoolState) : PoolState :=
  match s.usage[i]? with
  | none => s
  | some ks => { s with usage := s.usage.set i { ks with requests := ks.requests + 1 } }

/-- Cursor advance, youtube_scraper.py lines 58 and 113-114:
`self.current_key_index = (self.current_key_index + 1) % len(self.api_keys)`. -/
def advanceCursor (s : PoolState) : PoolState :=
  { s with current_key_index := (s.current_key_index + 1) % s.usage.length }

/-- Possible outcomes of one issued HTTP request, as `_make_api_request`
distinguishes them.  `ok quotaError payload` is an HTTP 200 whose parsed
JSON is `payload`; `quotaError` is true exactly when the payload embeds an
error object with code 403 and a message containing "quota"
(youtube_scraper.py lines 86-88).  `forbidden` is an HTTP 403 status;
`otherStatus` any other non-200 status; `transportError` a
`requests.exceptions.RequestException`. -/
inductive ApiResponse where
  | ok (quotaError : Bool) (payload : Nat)
  | forbidden
  | otherStatus
  | transportError
deriving Repr, DecidableEq

/-- Predicate for an HTTP 200 response. -/
def ApiResponse.is200 : ApiResponse → Bool
  | .ok _ _ => true
  | _ => false

/-- Control outcome of handling one response inside the retry loop of
`_make_api_request`: return the payload, `continue` (the quota branches,
which skip the cursor advance at lines 113-114), or fall through to the
cursor advance and backoff (other statuses and transport errors). -/
inductive AttemptStep where
  | success (payload : Nat)
  | quotaRetry
  | errorRetry
deriving Repr, DecidableEq

/-- Handling of one response by `_make_api_request` (youtube_scraper.py
lines 79-111) for the request issued with key index `i`:
  * HTTP 200: increment the key's request counter (line 83, before any
    payload inspection); if the payload embeds a quota error, flag the key
    and `continue` (lines 86-92); otherwise return the payload (line 94).
  * HTTP 403: flag the key and `continue` (lines 96-101).
  * Other status or transport error: fall through to the cursor advance
    (lines 103-111). -/
def processResponse (i : Nat) (r : ApiResponse) (s : PoolState) :
    AttemptStep × PoolState :=
  match r with
  | .ok quotaError payload =>
    let s₁ := recordUse i s
    if quotaError then (.quotaRetry, markExceeded i s₁)
    else (.success payload, s₁)
  | .forbidden => (.quotaRetry, markExceeded i s)
  | .otherStatus => (.errorRetry, s)
  | .transportError => (.errorRetry, s)

/-- Retry loop of `_make_api_request` (youtube_scraper.py lines 69-117),
with `max_retries - retry_count` as fuel.  Each iteration acquires a key
(returning `None` when the pool is exhausted, lines 70-72), issues the
request by consuming the head of the script, and handles the response;
`quotaRetry` re-enters the loop directly (the `continue` statements),
`errorRetry` first advances the cursor (lines 113-114).  The returned
triple is (result, final state, unconsumed script); an empty script
stands for an environment issuing no response and aborts the call. -/
def makeApiRequestAux : Nat → List ApiResponse → PoolState →
    Option Nat × PoolState × List ApiResponse
  | 0, script, s => (none, s, script)
  | retriesLeft + 1, script, s =>
    match getNextAvailableKey s with
    | (none, s₁) => (none, s₁, script)
    | (some i, s₁) =>
      match script with
      | [] => (none, s₁, [])
      | r :: rest =>
        match processResponse i r s₁ with
        | (.success payload, s₂) => (some payload, s₂, rest)
        | (.quotaRetry, s₂) => makeApiRequestAux retriesLeft rest s₂
        | (.errorRetry, s₂) => makeApiRequestAux retriesLeft rest (advanceCursor s₂)

/-- Model of `_make_api_request` with its `max_retries = 3` budget. -/
def makeApiRequest (script : List ApiResponse) (s : PoolState) :
    Option Nat × PoolState × List ApiResponse :=
  makeApiRequestAux max_retries script s

/-- Input of `calculate_engagement_rate`: the two fields the function reads
from the stats dict.  `none` models a value on which `int(...)` raises
(the `except` path of the function). -/
structure StatsInput where
  subscriberCount : Option Int
  viewCount : Option Int
deriving Repr, DecidableEq

/-- Model of `calculate_engagement_rate` (mass_scraper.py lines 244-257):
parse both counts (any parse failure lands in the `except` branch and
yields 5.0); return 0.0 when the subscriber count is zero; otherwise
`view / subscribers * 100` clamped by `min(max(e, 0.1), 15.0)`. -/
def calculate_engagement_rate (stats : StatsInput) : Rat :=
  match stats.subscriberCount, stats.viewCount with
  | some subscriber_count, some view_count =>
    if subscriber_count = 0 then 0
    else min (max (((view_count : Rat) / (subscriber_count : Rat)) * 100) (1/10)) 15
  | _, _ => 5

/-- Mapping of search terms to database categories, `get_category_mapping`
in mass_scraper.py (lines 192-220), embedded as an association list. -/
def get_category_mapping : List (String × String) :=
  [("beauty", "Beauty & Cosmetics"), ("makeup", "Beauty & Cosmetics"),
   ("skincare", "Beauty & Cosmetics"), ("fashion", "Fashion & Style"),
   ("tech", "Technology & Gadgets"), ("programming", "Technology & Gadgets"),
   ("gadgets", "Technology & Gadgets"), ("ai", "Technology & Gadgets"),
   ("gaming", "Gaming & Esports"), ("esports", "Gaming & Esports"),
   ("streaming", "Gaming & Esports"), ("fitness", "Fitness & Health"),
   ("yoga", "Fitness & Health"), ("nutrition", "Fitness & Health"),
   ("wellness", "Fitness & Health"), ("food", "Food & Cooking"),
   ("cooking", "Food & Cooking"), ("baking", "Food & Cooking"),
   ("restaurant", "Food & Cooking"), ("travel", "Travel & Lifestyle"),
   ("lifestyle", "Travel & Lifestyle"), ("vlog", "Travel & Lifestyle"),
   ("education", "Education & Learning"), ("tutorials", "Education & Learning"),
   ("courses", "Education & Learning"), ("business", "Business & Finance"),
   ("finance", "Business & Finance"), ("entrepreneur", "Business & Finance"),
   ("music", "Music & Arts"), ("art", "Music & Arts"), ("dance", "Music & Arts"),
   ("sports", "Sports & Athletics"), ("workout", "Sports & Athletics"),
   ("automotive", "Automotive & Cars"), ("cars", "Automotive & Cars"),
   ("bikes", "Automotive & Cars"), ("parenting", "Parenting & Family"),
   ("family", "Parenting & Family"), ("kids", "Parenting & Family"),
   ("science", "Science & Technology"), ("research", "Science & Technology"),
   ("innovation", "Science & Technology"), ("comedy", "Entertainment & Comedy"),
   ("entertainment", "Entertainment & Comedy"), ("funny", "Entertainment & Comedy"),
   ("diy", "DIY & Crafts"), ("crafts", "DIY & Crafts"), ("hacks", "DIY & Crafts"),
   ("reviews", "Reviews & Testing"), ("testing", "Reviews & Testing"),
   ("unboxing", "Reviews & Testing")]

/-- Mapping of search terms to database niches, `get_niche_mapping`
in mass_scraper.py (lines 222-242). -/
def get_niche_mapping : List (String × String) :=
  [("beauty", "beauty"), ("makeup", "beauty"), ("skincare", "beauty"),
   ("fashion", "fashion"), ("tech", "tech"), ("programming", "tech"),
   ("gadgets", "tech"), ("ai", "tech"), ("gaming", "gaming"),
   ("esports", "gaming"), ("streaming", "gaming"), ("fitness", "fitness"),
   ("yoga", "fitness"), ("nutrition", "fitness"), ("wellness", "fitness"),
   ("food", "food"), ("cooking", "food"), ("baking", "food"),
   ("restaurant", "food"), ("travel", "travel"), ("lifestyle", "travel"),
   ("vlog", "travel"), ("education", "education"), ("tutorials", "education"),
   ("courses", "education"), ("business", "business"), ("finance", "business"),
   ("entrepreneur", "business"), ("music", "music"), ("art", "music"),
   ("dance", "music"), ("sports", "sports"), ("workout", "sports"),
   ("automotive", "automotive"), ("cars", "automotive"), ("bikes", "automotive"),
   ("parenting", "parenting"), ("family", "parenting"), ("kids", "parenting"),
   ("science", "science"), ("research", "science"), ("innovation", "science"),
   ("comedy", "entertainment"), ("entertainment", "entertainment"),
   ("funny", "entertainment"), ("diy", "diy"), ("crafts", "diy"),
   ("hacks", "diy"), ("reviews", "reviews"), ("testing", "reviews"),
   ("unboxing", "reviews")]

/-- City-to-country table of `get_country_from_city` in mass_scraper.py
(lines 160-190). -/
def city_country_map : List (String × String) :=
  [("Mumbai", "India"), ("Delhi", "India"), ("Bangalore", "India"),
   ("Chennai", "India"), ("Hyderabad", "India"), ("Kolkata", "India"),
   ("Los Angeles", "USA"), ("New York", "USA"), ("Chicago", "USA"),
   ("Houston", "USA"), ("Phoenix", "USA"), ("Philadelphia", "USA"),
   ("San Antonio", "USA"), ("San Diego", "USA"), ("Dallas", "USA"),
   ("San Jose", "USA"), ("San Francisco", "USA"),
   ("London", "UK"), ("Manchester", "UK"), ("Birmingham", "UK"),
   ("Leeds", "UK"), ("Liverpool", "UK"), ("Brighton", "UK"),
   ("Paris", "France"), ("Marseille", "France"), ("Lyon", "France"),
   ("Berlin", "Germany"), ("Hamburg", "Germany"), ("Munich", "Germany"),
   ("Milan", "Italy"), ("Rome", "Italy"),
   ("Tokyo", "Japan"), ("Osaka", "Japan"), ("Yokohama", "Japan"),
   ("Sydney", "Australia"), ("Melbourne", "Australia"), ("Brisbane", "Australia"),
   ("Toronto", "Canada"), ("Montreal", "Canada"), ("Vancouver", "Canada")]

/-- Model of `get_country_from_city`: dictionary lookup with default
"Unknown". -/
def get_country_from_city (city : String) : String :=
  (city_country_map.lookup city).getD "Unknown"

/-- Channel summary built by `search_channels` (youtube_scraper.py lines
162-168): one search result item. -/
structure ChannelSummary where
  channelId : String
  channelTitle : String
  description : String
  publishedAt : String
  searchQuery : String
deriving Repr, DecidableEq

/-- Fields of the statistics dict returned by `get_channel_statistics`
(youtube_scraper.py lines 214-234) that `scrape_influencers_batch` reads.
The counts are already `int(...)`-parsed there (lines 221-223). -/
structure ChannelStats where
  channelTitle : String
  description : String
  publishedAt : String
  subscriberCount : Int
  viewCount : Int
  videoCount : Int
deriving Repr, DecidableEq

/-- One influencer record as built by `scrape_influencers_batch`
(mass_scraper.py lines 289-304). -/
structure Influencer where
  channel_id : String
  channel_title : String
  description : String
  subscriber_count : Int
  view_count : Int
  video_count : Int
  published_at : String
  category : String
  city : String
  country : String
  niche : String
  engagement_rate : Rat
  search_query : String
  scraped_at : String
deriving Repr, DecidableEq

/-- Record construction of `scrape_influencers_batch` (mass_scraper.py
lines 286-304): truncate the description to the configured maximum,
look up category and niche from the search term with defaults
"Other"/"other", infer the country from the city, and compute the
engagement rate from the (well-formed) statistics.  `nowStr` stands for
`datetime.now().isoformat()`. -/
def buildInfluencer (nowStr category city : String) (ch : ChannelSummary)
    (stats : ChannelStats) : Influencer :=
  { channel_id := ch.channelId
    channel_title := stats.channelTitle
    description := stats.description.take max_description_length
    subscriber_count := stats.subscriberCount
    view_count := stats.viewCount
    video_count := stats.videoCount
    published_at := stats.publishedAt
    category := (get_category_mapping.lookup category).getD "Other"
    city := city
    country := get_country_from_city city
    niche := (get_niche_mapping.lookup category).getD "other"
    engagement_rate := calculate_engagement_rate ⟨some stats.subscriberCount, some stats.viewCount⟩
    search_query := city ++ " " ++ category
    scraped_at := nowStr }

/-- Model of the per-channel loop of `scrape_influencers_batch`
(mass_scraper.py lines 275-316).  `channels` is the list of summaries the
search returned; `statsOf` is the statistics oracle (`none` models a
failed lookup, skipped by the `continue` at line 280).  A channel whose
subscriber count is below `min_subscribers` is skipped by the caller-side
check at lines 282-284; all others are turned into records in order. -/
def scrape_influencers_batch (statsOf : String → Option ChannelStats)
    (nowStr category city : String) (channels : List ChannelSummary)
    (min_subscribers : Int) : List Influencer :=
  channels.filterMap (fun ch =>
    match statsOf ch.channelId with
    | none => none
    | some stats =>
      if stats.subscriberCount < min_subscribers then none
      else some (buildInfluencer nowStr category city ch stats))

/-- Checkpoint save of the run loop (mass_scraper.py lines 448-452):
persist the full accumulated list under
`checkpoint_<count>_influencers.csv` exactly when the count is a positive
multiple of the checkpoint interval. -/
def checkpointSave (all : List Influencer) : Option (String × List Influencer) :=
  if all.length % checkpoint_interval = 0 ∧ 0 < all.length then
    some ("checkpoint_" ++ toString all.length ++ "_influencers.csv", all)
  else none

/-- Emergency save of the run loop (mass_scraper.py lines 454-458):
same persistence with the `emergency_save_` tag at the smaller interval. -/
def emergencySave (all : List Influencer) : Option (String × List Influencer) :=
  if all.length % emergency_save_interval = 0 ∧ 0 < all.length then
    some ("emergency_save_" ++ toString all.length ++ "_influencers.csv", all)
  else none

/-- One iteration of the inner loop of `mass_scrape_10k` (mass_scraper.py
lines 432-466) restricted to its persistence effects: extend the
accumulated list with the batch, then emit the checkpoint and emergency
saves the two guards produce.  The second and third components are the
files written (name and persisted contents), `none` when no save fires. -/
def runBatchStep (acc batch : List Influencer) :
    List Influencer × Option (String × List Influencer) × Option (String × List Influencer) :=
  let all := acc ++ batch
  (all, checkpointSave all, emergencySave all)

/-- Digit-string parser backing the model of Python `int(...)` on filename
segments: one or more decimal digits. -/
def parseDigits (cs : List Char) : Option Nat :=
  if cs ≠ [] ∧ cs.all Char.isDigit then
    some (cs.foldl (fun acc c => acc * 10 + (c.toNat - 48)) 0)
  else none

/-- Model of Python `int(s)` for the strings occurring as filename
segments (an optional sign followed by decimal digits); `none` models the
`ValueError` that `find_latest_checkpoint` catches and skips.  Filenames
are modelled as character lists so that every operation is structurally
computable. -/
def parseCount (seg : List Char) : Option Int :=
  match seg with
  | '-' :: rest => (parseDigits rest).map (fun n => -(n : Int))
  | '+' :: rest => (parseDigits rest).map (fun n => (n : Int))
  | chars => (parseDigits chars).map (fun n => (n : Int))

/-- Model of Python `str.split('_')` on a filename given as a character
list. -/
def splitUnderscore : List Char → List (List Char)
  | [] => [[]]
  | ch :: cs =>
    let r := splitUnderscore cs
    if ch = '_' then [] :: r
    else
      match r with
      | [] => [[ch]]
      | g :: gs => (ch :: g) :: gs

/-- Model of Python `str.startswith` on character lists. -/
def listStartsWith : List Char → List Char → Bool
  | _, [] => true
  | [], _ :: _ => false
  | ch :: cs, p :: ps => ch = p && listStartsWith cs ps

/-- Model of Python `str.endswith` on character lists. -/
def listEndsWith (s pat : List Char) : Bool :=
  listStartsWith s.reverse pat.reverse

/-- Per-filename filter of `find_latest_checkpoint` (mass_scraper.py lines
358-367): keep names of the form `checkpoint_..._influencers.csv`, split
on underscores, and parse the segment at position 1 as the count
(a `ValueError` skips the file; so does a name with fewer than two
segments). -/
def checkpointCount (filename : List Char) : Option Int :=
  if listStartsWith filename "checkpoint_".toList = true ∧
      listEndsWith filename "_influencers.csv".toList = true then
    match (splitUnderscore filename)[1]? with
    | some p => parseCount p
    | none => none
  else none

/-- Model of `find_latest_checkpoint` (mass_scraper.py lines 351-374) over
the directory listing `files`: collect the (count, name) pairs and return
the name and count of the pair with the greatest count.  The fold mirrors
Python `max(..., key=lambda x: x[0])`, which keeps the earliest of the
pairs attaining the maximum. -/
def find_latest_checkpoint (files : List (List Char)) : Option (List Char × Int) :=
  let checkpoint_files := files.filterMap (fun f => (checkpointCount f).map (fun c => (c, f)))
  match checkpoint_files with
  | [] => none
  | x :: xs =>
    let latest := xs.foldl (fun acc y => if acc.1 < y.1 then y else acc) x
    some (latest.2, latest.1)

/-- Observable effects of one invocation of `signal_handler`
(mass_scraper.py lines 24-43): the emergency-exit file written (name and
persisted records), whether `scraper_instance.close()` ran, and whether
the process exited via `sys.exit(0)`. -/
structure HandlerEffect where
  savedFile : Option (String × List Influencer)
  closedScraper : Bool
  exited : Bool
deriving Repr, DecidableEq

/-- Model of `signal_handler` (mass_scraper.py lines 24-43) on the global
state it reads: `is_running`, `current_influencers`, and whether
`scraper_instance` is set.  Only when the run is marked in progress and
the accumulated list is non-empty (Python truthiness of the list) does it
save the emergency-exit file, close the scraper if attached, and exit;
otherwise it returns with no effect and execution continues. -/
def signal_handler (is_running : Bool) (current_influencers : List Influencer)
    (scraper_attached : Bool) : HandlerEffect :=
  if is_running = true ∧ current_influencers ≠ [] then
    { savedFile := some ("emergency_exit_" ++ toString current_influencers.length ++
        "_influencers.csv", current_influencers)
      closedScraper := scraper_attached
      exited := true }
  else
    { savedFile := none, closedScraper := false, exited := false }

/-! Shared helper lemmas about the state operations. -/

/-- Writing back an element already present leaves a list unchanged. -/
theorem set_self_of_getElem {α : Type} (l : List α) (i : Nat) (a : α)
    (h : l[i]? = some a) : l.set i a = l := by
  induction l generalizing i with
  | nil => simp at h
  | cons x xs ih =>
    cases i with
    | zero => simp at h; simp [h]
    | succ n =>
      simp at h
      simp [ih n h]

/-- A key that is flagged but still inside the cool-down window is left
unchanged by the reset check. -/
theorem tryReset_not_cooled (now : Nat) (ks : KeyState)
    (h : now - ks.last_reset ≤ quota_reset_seconds) : tryReset now ks = ks := by
  unfold tryReset
  rw [if_neg]
  intro hcon
  exact absurd hcon.2 (not_lt.mpr h)

/-- A key whose flag is clear is left unchanged by the reset check. -/
theorem tryReset_clear (now : Nat) (ks : KeyState)
    (h : ks.quota_exceeded = false) : tryReset now ks = ks := by
  unfold tryReset
  rw [if_neg]
  intro hcon
  rw [h] at hcon
  exact Bool.false_ne_true hcon.1

/-- Pointwise description of `markExceeded`. -/
theorem markExceeded_getElem (i j : Nat) (s : PoolState) :
    (markExceeded i s).usage[j]? =
      if i = j then (s.usage[j]?).map (fun ks => { ks with quota_exceeded := true })
      else s.usage[j]? := by
  unfold markExceeded
  rcases hij : s.usage[i]? with _ | ks
  · rcases Nat.decEq i j with h | h
    · simp [h]
    · simp [h, h ▸ hij]
  · have hi : i < s.usage.length := (List.getElem?_eq_some.mp hij).1
    rcases Nat.decEq i j with h | h
    · simp only [if_neg h]
      exact List.getElem?_set_ne h
    · subst h
      simp [List.getElem?_set_self hi, hij]

/-- `markExceeded` keeps the pool size. -/
theorem markExceeded_length (i : Nat) (s : PoolState) :
    (markExceeded i s).usage.length = s.usage.length := by
  unfold markExceeded
  rcases h : s.usage[i]? with _ | ks <;> simp

/-- `markExceeded` does not move the cursor. -/
theorem markExceeded_cursor (i : Nat) (s : PoolState) :
    (markExceeded i s).current_key_index = s.current_key_index := by
  unfold markExceeded
  rcases h : s.usage[i]? with _ | ks <;> simp

/-- `markExceeded` does not advance the clock. -/
theorem markExceeded_now (i : Nat) (s : PoolState) :
    (markExceeded i s).now = s.now := by
  unfold markExceeded
  rcases h : s.usage[i]? with _ | ks <;> simp

/-- Pointwise description of `recordUse`. -/
theorem recordUse_getElem (i j : Nat) (s : PoolState) :
    (recordUse i s).usage[j]? =
      if i = j then (s.usage[j]?).map (fun ks => { ks with requests := ks.requests + 1 })
      else s.usage[j]? := by
  unfold recordUse
  rcases hij : s.usage[i]? with _ | ks
  · rcases Nat.decEq i j with h | h
    · simp [h]
    · simp [h, h ▸ hij]
  · have hi : i < s.usage.length := (List.getElem?_eq_some.mp hij).1
    rcases Nat.decEq i j with h | h
    · simp only [if_neg h]
      exact List.getElem?_set_ne h
    · subst h
      simp [List.getElem?_set_self hi, hij]

/-- `recordUse` keeps the pool size. -/
theorem recordUse_length (i : Nat) (s : PoolState) :
    (recordUse i s).usage.length = s.usage.length := by
  unfold recordUse
  rcases h : s.usage[i]? with _ | ks <;> simp

/-- `recordUse` does not move the cursor. -/
theorem recordUse_cursor (i : Nat) (s : PoolState) :
    (recordUse i s).current_key_index = s.current_key_index := by
  unfold recordUse
  rcases h : s.usage[i]? with _ | ks <;> simp

/-- `recordUse` does not advance the clock. -/
theorem recordUse_now (i : Nat) (s : PoolState) :
    (recordUse i s).now = s.now := by
  unfold recordUse
  rcases h : s.usage[i]? with _ | ks <;> simp

/-- `processResponse` keeps the pool size. -/
theorem processResponse_length (i : Nat) (r : ApiResponse) (s : PoolState) :
    (processResponse i r s).2.usage.length = s.usage.length := by
  cases r with
  | ok q p =>
    unfold processResponse
    by_cases hq : q <;>
      simp [hq, markExceeded_length, recordUse_length]
  | forbidden => simp [processResponse, markExceeded_length]
  | otherStatus => simp [processResponse]
  | transportError => simp [processResponse]

/-- `processResponse` does not move the cursor. -/
theorem processResponse_cursor (i : Nat) (r : ApiResponse) (s : PoolState) :
    (processResponse i r s).2.current_key_index = s.current_key_index := by
  cases r with
  | ok q p =>
    unfold processResponse
    by_cases hq : q <;>
      simp [hq, markExceeded_cursor, recordUse_cursor]
  | forbidden => simp [processResponse, markExceeded_cursor]
  | otherStatus => simp [processResponse]
  | transportError => simp [processResponse]

/-- The scan of `_get_next_available_key` keeps the pool size. -/
theorem getNextKeyAux_length (fuel : Nat) (s : PoolState) :
    (getNextKeyAux fuel s).2.usage.length = s.usage.length := by
  induction fuel generalizing s with
  | zero => simp [getNextKeyAux]
  | succ n ih =>
    unfold getNextKeyAux
    rcases h : s.usage[s.current_key_index]? with _ | ks
    · simp
    · cases hq : (tryReset s.now ks).quota_exceeded
      · simp [hq]
      · simp only [hq]
        rw [if_neg (by decide)]
        rw [ih]
        simp

/-- The scan of `_get_next_available_key` keeps the cursor inside the
pool. -/
theorem getNextKeyAux_cursor_lt (fuel : Nat) (s : PoolState)
    (h0 : 0 < s.usage.length) (hc : s.current_key_index < s.usage.length) :
    (getNextKeyAux fuel s).2.current_key_index < (getNextKeyAux fuel s).2.usage.length := by
  induction fuel generalizing s with
  | zero => simpa [getNextKeyAux] using hc
  | succ n ih =>
    unfold getNextKeyAux
    rcases h : s.usage[s.current_key_index]? with _ | ks
    · simpa using hc
    · cases hq : (tryReset s.now ks).quota_exceeded
      · simpa [hq] using hc
      · simp only [hq]
        rw [if_neg (by decide)]
        apply ih
        · simpa using h0
        · simp only [List.length_set]
          exact Nat.mod_lt _ h0

/-- When every key in the pool is flagged and still cooling down, the scan
finds nothing and leaves the usage records and the clock unchanged. -/
theorem getNextKeyAux_all_exceeded (fuel : Nat) (s : PoolState)
    (hall : ∀ ks ∈ s.usage, ks.quota_exceeded = true ∧
      s.now - ks.last_reset ≤ quota_reset_seconds) :
    (getNextKeyAux fuel s).1 = none ∧
    (getNextKeyAux fuel s).2.usage = s.usage ∧
    (getNextKeyAux fuel s).2.now = s.now := by
  induction fuel generalizing s with
  | zero => simp [getNextKeyAux]
  | succ n ih =>
    unfold getNextKeyAux
    rcases h : s.usage[s.current_key_index]? with _ | ks
    · simp
    · have hmem : ks ∈ s.usage := by
        rcases List.getElem?_eq_some.mp h with ⟨hlt, hget⟩
        exact hget ▸ List.getElem_mem hlt
      have hks := hall ks hmem
      have hreset : tryReset s.now ks = ks := tryReset_not_cooled s.now ks hks.2
      have hset : s.usage.set s.current_key_index ks = s.usage :=
        set_self_of_getElem _ _ _ h
      simp only [hreset, hset, hks.1]
      rw [if_neg (by decide)]
      simpa using ih { s with current_key_index := (s.current_key_index + 1) % s.usage.length } hall

/-- One scan step on a key whose flag is clear returns that key at once
and leaves the state unchanged. -/
theorem getNextKeyAux_at_clear (fuel : Nat) (s : PoolState) (ks : KeyState)
    (h : s.usage[s.current_key_index]? = some ks)
    (hq : ks.quota_exceeded = false) :
    getNextKeyAux (fuel + 1) s = (some s.current_key_index, s) := by
  simp only [getNextKeyAux, h, tryReset_clear s.now ks hq, set_self_of_getElem _ _ _ h, hq]
  rfl

/-- One scan step on a key that is flagged and still cooling down skips it
and advances the cursor. -/
theorem getNextKeyAux_skip (fuel : Nat) (s : PoolState) (ks : KeyState)
    (h : s.usage[s.current_key_index]? = some ks)
    (hq : ks.quota_exceeded = true)
    (hcool : s.now - ks.last_reset ≤ quota_reset_seconds) :
    getNextKeyAux (fuel + 1) s =
      getNextKeyAux fuel
        { s with current_key_index := (s.current_key_index + 1) % s.usage.length } := by
  simp only [getNextKeyAux, h, tryReset_not_cooled s.now ks hcool,
    set_self_of_getElem _ _ _ h, hq]
  rw [if_neg (by decide)]

/-- One scan step on a key that is flagged but past the cool-down window
clears its flag, zeroes its counter, stamps the timestamp, and returns
it. -/
theorem getNextKeyAux_at_cooled (fuel : Nat) (s : PoolState) (ks : KeyState)
    (h : s.usage[s.current_key_index]? = some ks)
    (hq : ks.quota_exceeded = true)
    (hcool : quota_reset_seconds < s.now - ks.last_reset) :
    getNextKeyAux (fuel + 1) s =
      (some s.current_key_index,
        { s with usage := s.usage.set s.current_key_index (⟨0, false, s.now⟩ : KeyState) }) := by
  have hr : tryReset s.now ks = (⟨0, false, s.now⟩ : KeyState) := by
    unfold tryReset
    rw [if_pos ⟨hq, hcool⟩]
  simp only [getNextKeyAux, h, hr]
  rfl

/-- Acquiring when the key at the cursor has a clear flag returns that key
and leaves the state unchanged. -/
theorem acquire_at_clear (s : PoolState) (ks : KeyState)
    (h : s.usage[s.current_key_index]? = some ks)
    (hq : ks.quota_exceeded = false) :
    getNextAvailableKey s = (some s.current_key_index, s) := by
  have hlt : s.current_key_index < s.usage.length := (List.getElem?_eq_some.mp h).1
  have h0 : s.usage.length ≠ 0 := by omega
  rcases Nat.exists_eq_succ_of_ne_zero h0 with ⟨m, hm⟩
  unfold getNextAvailableKey
  rw [hm]
  exact getNextKeyAux_at_clear m s ks h hq

/-- The acquire phase keeps the pool size. -/
theorem getNextAvailableKey_length (s : PoolState) :
    (getNextAvailableKey s).2.usage.length = s.usage.length :=
  getNextKeyAux_length _ _

/-- The acquire phase keeps the cursor inside the pool. -/
theorem getNextAvailableKey_cursor_lt (s : PoolState) (h0 : 0 < s.usage.length)
    (hc : s.current_key_index < s.usage.length) :
    (getNextAvailableKey s).2.current_key_index < (getNextAvailableKey s).2.usage.length :=
  getNextKeyAux_cursor_lt _ _ h0 hc

theorem makeApiRequestAux_none (fuel : Nat) (script : List ApiResponse) (s s₁ : PoolState)
    (heq : getNextAvailableKey s = (none, s₁)) :
    makeApiRequestAux (fuel + 1) script s = (none, s₁, script) := by
  simp only [makeApiRequestAux, heq]

theorem makeApiRequestAux_empty (fuel : Nat) (s : PoolState) (i : Nat) (s₁ : PoolState)
    (heq : getNextAvailableKey s = (some i, s₁)) :
    makeApiRequestAux (fuel + 1) [] s = (none, s₁, []) := by
  simp only [makeApiRequestAux, heq]

theorem makeApiRequestAux_success (fuel : Nat) (s : PoolState) (i : Nat) (s₁ : PoolState)
    (r : ApiResponse) (rest : List ApiResponse) (p : Nat) (s₂ : PoolState)
    (heq : getNextAvailableKey s = (some i, s₁))
    (hpr : processResponse i r s₁ = (.success p, s₂)) :
    makeApiRequestAux (fuel + 1) (r :: rest) s = (some p, s₂, rest) := by
  simp only [makeApiRequestAux, heq, hpr]

theorem makeApiRequestAux_quotaRetry (fuel : Nat) (s : PoolState) (i : Nat) (s₁ : PoolState)
    (r : ApiResponse) (rest : List ApiResponse) (s₂ : PoolState)
    (heq : getNextAvailableKey s = (some i, s₁))
    (hpr : processResponse i r s₁ = (.quotaRetry, s₂)) :
    makeApiRequestAux (fuel + 1) (r :: rest) s = makeApiRequestAux fuel rest s₂ := by
  simp only [makeApiRequestAux, heq, hpr]

theorem makeApiRequestAux_errorRetry (fuel : Nat) (s : PoolState) (i : Nat) (s₁ : PoolState)
    (r : ApiResponse) (rest : List ApiResponse) (s₂ : PoolState)
    (heq : getNextAvailableKey s = (some i, s₁))
    (hpr : processResponse i r s₁ = (.errorRetry, s₂)) :
    makeApiRequestAux (fuel + 1) (r :: rest) s = makeApiRequestAux fuel rest (advanceCursor s₂) := by
  simp only [makeApiRequestAux, heq, hpr]

/-- The retry loop of `_make_api_request` preserves pool size positivity
and the cursor bound. -/
theorem makeApiRequestAux_inv (fuel : Nat) (script : List ApiResponse) (s : PoolState)
    (h0 : 0 < s.usage.length) (hc : s.current_key_index < s.usage.length) :
    0 < (makeApiRequestAux fuel script s).2.1.usage.length ∧
    (makeApiRequestAux fuel script s).2.1.current_key_index <
      (makeApiRequestAux fuel script s).2.1.usage.length := by
  induction fuel generalizing script s with
  | zero => exact ⟨h0, hc⟩
  | succ n ih =>
    rcases hacq : getNextAvailableKey s with ⟨res, s₁⟩
    have hl : s₁.usage.length = s.usage.length := by
      have t := getNextAvailableKey_length s
      rw [hacq] at t
      exact t
    have hcu : s₁.current_key_index < s₁.usage.length := by
      have t := getNextAvailableKey_cursor_lt s h0 hc
      rw [hacq] at t
      exact t
    have h01 : 0 < s₁.usage.length := hl ▸ h0
    cases res with
    | none =>
      rw [makeApiRequestAux_none n script s s₁ hacq]
      exact ⟨h01, hcu⟩
    | some i =>
      cases script with
      | nil =>
        rw [makeApiRequestAux_empty n s i s₁ hacq]
        exact ⟨h01, hcu⟩
      | cons r rest =>
        rcases hpr : processResponse i r s₁ with ⟨step, s₂⟩
        have hl2 : s₂.usage.length = s₁.usage.length := by
          have t := processResponse_length i r s₁
          rw [hpr] at t
          exact t
        have hc2 : s₂.current_key_index = s₁.current_key_index := by
          have t := processResponse_cursor i r s₁
          rw [hpr] at t
          exact t
        have h02 : 0 < s₂.usage.length := hl2 ▸ h01
        have hcu2 : s₂.current_key_index < s₂.usage.length := by
          rw [hc2, hl2]
          exact hcu
        cases step with
        | success p =>
          rw [makeApiRequestAux_success n s i s₁ r rest p s₂ hacq hpr]
          exact ⟨h02, hcu2⟩
        | quotaRetry =>
          rw [makeApiRequestAux_quotaRetry n s i s₁ r rest s₂ hacq hpr]
          exact ih rest s₂ h02 hcu2
        | errorRetry =>
          rw [makeApiRequestAux_errorRetry n s i s₁ r rest s₂ hacq hpr]
          exact ih rest (advanceCursor s₂)
            (by simpa [advanceCursor] using h02)
            (by simp only [advanceCursor]; exact Nat.mod_lt _ h02)

/-- Marking every credential of the pool, modelling `markExceeded` applied
once to each of the N distinct credentials. -/
def markAllExceeded (s : PoolState) : PoolState :=
  (List.range s.usage.length).foldl (fun t i => markExceeded i t) s

/-- Pointwise effect of a sequence of `markExceeded` calls. -/
theorem foldl_mark_getElem (l : List Nat) (t : PoolState) (j : Nat) :
    (l.foldl (fun t i => markExceeded i t) t).usage[j]? =
      (t.usage[j]?).map
        (fun ks => if j ∈ l then { ks with quota_exceeded := true } else ks) := by
  induction l generalizing t with
  | nil => simp
  | cons i l ih =>
    rw [List.foldl_cons, ih (markExceeded i t), markExceeded_getElem i j t]
    by_cases hij : i = j
    · subst hij
      rw [if_pos rfl]
      cases h : t.usage[i]? with
      | none => simp
      | some ks =>
        have hin : i ∈ i :: l := List.mem_cons_self i l
        by_cases hm : i ∈ l <;> simp [hm, hin]
    · rw [if_neg hij]
      cases h : t.usage[j]? with
      | none => simp
      | some ks =>
        have hiff : (j ∈ i :: l) ↔ (j ∈ l) := by
          constructor
          · intro hmem
            rcases List.mem_cons.mp hmem with rfl | hmem'
            · exact absurd rfl hij
            · exact hmem'
          · exact List.mem_cons_of_mem i
        simp [hiff]

/-- A sequence of `markExceeded` calls does not advance the clock. -/
theorem foldl_mark_now (l : List Nat) (t : PoolState) :
    (l.foldl (fun t i => markExceeded i t) t).now = t.now := by
  induction l generalizing t with
  | nil => rfl
  | cons i l ih => rw [List.foldl_cons, ih, markExceeded_now]

/-- A sequence of `markExceeded` calls keeps the pool size. -/
theorem foldl_mark_length (l : List Nat) (t : PoolState) :
    (l.foldl (fun t i => markExceeded i t) t).usage.length = t.usage.length := by
  induction l generalizing t with
  | nil => rfl
  | cons i l ih => rw [List.foldl_cons, ih, markExceeded_length]

/-- After `markAllExceeded`, every key is flagged, and each key keeps its
previous reset timestamp. -/
theorem markAllExceeded_spec (s : PoolState) :
    (markAllExceeded s).now = s.now ∧
    ∀ ks ∈ (markAllExceeded s).usage, ks.quota_exceeded = true ∧
      ∃ ks₀ ∈ s.usage, ks.last_reset = ks₀.last_reset := by
  refine ⟨foldl_mark_now _ _, ?_⟩
  intro ks hmem
  rcases List.mem_iff_getElem?.mp hmem with ⟨j, hj⟩
  rw [markAllExceeded, foldl_mark_getElem] at hj
  rcases h0 : s.usage[j]? with _ | ks₀
  · rw [h0] at hj
    simp at hj
  · rw [h0] at hj
    have hjlt : j < s.usage.length := (List.getElem?_eq_some.mp h0).1
    have hjin : j ∈ List.range s.usage.length := List.mem_range.mpr hjlt
    have hj' : some (if j ∈ List.range s.usage.length
        then { ks₀ with quota_exceeded := true } else ks₀) = some ks := hj
    rw [if_pos hjin] at hj'
    have hks : { ks₀ with quota_exceeded := true } = ks := Option.some.inj hj'
    have hmem₀ : ks₀ ∈ s.usage := by
      rcases List.getElem?_eq_some.mp h0 with ⟨hlt, hget⟩
      exact hget ▸ List.getElem_mem hlt
    exact ⟨by rw [← hks], ks₀, hmem₀, by rw [← hks]⟩

/-- The fold mirroring Python `max(..., key=...)` returns one of the
candidates. -/
theorem foldl_pick_mem (x : Int × List Char) (xs : List (Int × List Char)) :
    xs.foldl (fun acc y => if acc.1 < y.1 then y else acc) x ∈ x :: xs := by
  induction xs generalizing x with
  | nil => simp
  | cons y ys ih =>
    rw [List.foldl_cons]
    have h := ih (if x.1 < y.1 then y else x)
    rcases List.mem_cons.mp h with h1 | h1
    · rw [h1]
      by_cases hxy : x.1 < y.1 <;> simp [hxy]
    · exact List.mem_cons_of_mem _ (List.mem_cons_of_mem _ h1)

/-- The fold mirroring Python `max(..., key=...)` dominates the seed and
every candidate. -/
theorem foldl_pick_ge (x : Int × List Char) (xs : List (Int × List Char)) :
    x.1 ≤ (xs.foldl (fun acc y => if acc.1 < y.1 then y else acc) x).1 ∧
    ∀ y ∈ xs, y.1 ≤ (xs.foldl (fun acc y => if acc.1 < y.1 then y else acc) x).1 := by
  induction xs generalizing x with
  | nil => simp
  | cons y ys ih =>
    rw [List.foldl_cons]
    rcases ih (if x.1 < y.1 then y else x) with ⟨h1, h2⟩
    constructor
    · refine le_trans ?_ h1
      by_cases hxy : x.1 < y.1
      · rw [if_pos hxy]
        exact le_of_lt hxy
      · rw [if_neg hxy]
    · intro z hz
      rcases List.mem_cons.mp hz with rfl | hz'
      · refine le_trans ?_ h1
        by_cases hxy : x.1 < z.1
        · rw [if_pos hxy]
        · rw [if_neg hxy]
          exact le_of_not_lt hxy
      · exact h2 z hz'

/-! Claim theorems. -/

/-- C1 (counterexample): on the statistics input with subscriberCount = 0
and viewCount = 0 — non-negative integers — `calculate_engagement_rate`
returns 0.0, which lies outside [0.1, 15.0] and is not the fallback 5.0:
mass_scraper.py lines 250-251 return 0.0 for a zero subscriber count, and
reserve 5.0 for the `except` path alone. -/
theorem engagement_zero_subscribers_counterexample :
    calculate_engagement_rate ⟨some 0, some 0⟩ = 0 ∧
    ¬ ((1 : Rat)/10 ≤ calculate_engagement_rate ⟨some 0, some 0⟩ ∧
        calculate_engagement_rate ⟨some 0, some 0⟩ ≤ 15) ∧
    calculate_engagement_rate ⟨some 0, some 0⟩ ≠ 5 := by
  refine ⟨?_, ?_, ?_⟩ <;> norm_num [calculate_engagement_rate]

/-- C1 (amended): the engagement metric lies in [0.1, 15.0] for every
well-formed input with positive subscriber count and non-negative view
count; it is 0.0 (not 5.0) when the subscriber count is zero; and it is
5.0 exactly on malformed inputs, where `int(...)` raises. -/
theorem engagement_rate_spec (sub view : Int) (hsub : 0 < sub) (hview : 0 ≤ view) :
    ((1 : Rat)/10 ≤ calculate_engagement_rate ⟨some sub, some view⟩ ∧
      calculate_engagement_rate ⟨some sub, some view⟩ ≤ 15) ∧
    (∀ v : Int, calculate_engagement_rate ⟨some 0, some v⟩ = 0) ∧
    (∀ os : Option Int, calculate_engagement_rate ⟨os, none⟩ = 5) ∧
    (∀ ov : Option Int, calculate_engagement_rate ⟨none, ov⟩ = 5) := by
  refine ⟨?_, ?_, ?_, ?_⟩
  · simp only [calculate_engagement_rate]
    rw [if_neg (by omega : ¬ sub = 0)]
    constructor
    · exact le_min (le_max_right _ _) (by norm_num)
    · exact min_le_right _ _
  · intro v
    simp [calculate_engagement_rate]
  · intro os
    cases os <;> rfl
  · intro ov
    rfl

/-- C1 witness: the amended theorem applied at subscriberCount 200,
viewCount 100. -/
theorem engagement_rate_spec_witness :
    (1 : Rat)/10 ≤ calculate_engagement_rate ⟨some 200, some 100⟩ ∧
    calculate_engagement_rate ⟨some 200, some 100⟩ ≤ 15 :=
  (engagement_rate_spec 200 100 (by norm_num) (by norm_num)).1

/-- C10: if the interrupt arrives while the accumulated list is empty or
while no run is marked in progress, `signal_handler` persists nothing,
does not close the session, and does not exit: the guard at
mass_scraper.py line 28 fails and the handler returns, so the signal is
consumed and execution continues unchanged. -/
theorem signal_handler_noop (r : Bool) (infl : List Influencer) (sc : Bool)
    (h : infl = [] ∨ r = false) :
    signal_handler r infl sc =
      { savedFile := none, closedScraper := false, exited := false } := by
  unfold signal_handler
  rcases h with h | h
  · rw [if_neg]
    intro hcon
    exact hcon.2 h
  · rw [if_neg]
    intro hcon
    rw [h] at hcon
    exact Bool.false_ne_true hcon.1

/-- C10 witness: the theorem applied to a running state with an empty
accumulated list and an attached scraper. -/
theorem signal_handler_noop_witness :
    signal_handler true [] true =
      { savedFile := none, closedScraper := false, exited := false } :=
  signal_handler_noop true [] true (Or.inl rfl)

/-- Arbitrary record used to build concrete accumulated lists. -/
def dummyInfluencer : Influencer :=
  { channel_id := "c", channel_title := "t", description := "",
    subscriber_count := 1000, view_count := 0, video_count := 0,
    published_at := "", category := "Other", city := "Mumbai",
    country := "India", niche := "other", engagement_rate := 0,
    search_query := "", scraped_at := "" }

/-- C3 (counterexample): a batch step taking the accumulated count from
95 to 105 crosses a multiple of the checkpoint interval 100 (and a
multiple of the emergency interval 50), yet neither save fires: the run
loop tests `len % interval == 0` (mass_scraper.py lines 449 and 455), so
only a count landing exactly on a multiple persists anything. -/
theorem checkpoint_crossing_counterexample :
    (List.replicate 95 dummyInfluencer).length / checkpoint_interval <
      (List.replicate 95 dummyInfluencer ++ List.replicate 10 dummyInfluencer).length /
        checkpoint_interval ∧
    (runBatchStep (List.replicate 95 dummyInfluencer) (List.replicate 10 dummyInfluencer)).2.1 =
      none ∧
    (List.replicate 95 dummyInfluencer).length / emergency_save_interval <
      (List.replicate 95 dummyInfluencer ++ List.replicate 10 dummyInfluencer).length /
        emergency_save_interval ∧
    (runBatchStep (List.replicate 95 dummyInfluencer) (List.replicate 10 dummyInfluencer)).2.2 =
      none := by
  have h95 : (List.replicate 95 dummyInfluencer).length = 95 := by simp
  have hall : (List.replicate 95 dummyInfluencer ++ List.replicate 10 dummyInfluencer).length =
      105 := by simp
  refine ⟨?_, ?_, ?_, ?_⟩
  · rw [h95, hall]
    decide
  · simp [runBatchStep, checkpointSave, hall, checkpoint_interval]
  · rw [h95, hall]
    decide
  · simp [runBatchStep, emergencySave, hall, emergency_save_interval]

/-- C3 (amended): at every batch step of the run loop, the checkpoint
save fires exactly when the new accumulated count is positive and
divisible by the checkpoint interval, and the emergency save exactly when
it is positive and divisible by the emergency interval; each save
persists the full accumulated list under its own tag with the count
encoded in the filename.  Crossing a multiple without landing on it
persists nothing. -/
theorem batch_step_save_spec (acc batch : List Influencer) :
    ((acc ++ batch).length % checkpoint_interval = 0 ∧ 0 < (acc ++ batch).length →
      (runBatchStep acc batch).2.1 =
        some ("checkpoint_" ++ toString (acc ++ batch).length ++ "_influencers.csv",
          acc ++ batch)) ∧
    ((acc ++ batch).length % checkpoint_interval ≠ 0 →
      (runBatchStep acc batch).2.1 = none) ∧
    ((acc ++ batch).length % emergency_save_interval = 0 ∧ 0 < (acc ++ batch).length →
      (runBatchStep acc batch).2.2 =
        some ("emergency_save_" ++ toString (acc ++ batch).length ++ "_influencers.csv",
          acc ++ batch)) ∧
    ((acc ++ batch).length % emergency_save_interval ≠ 0 →
      (runBatchStep acc batch).2.2 = none) := by
  refine ⟨?_, ?_, ?_, ?_⟩
  · intro h
    simp only [runBatchStep, checkpointSave]
    rw [if_pos h]
  · intro h
    simp only [runBatchStep, checkpointSave]
    rw [if_neg (fun hcon => h hcon.1)]
  · intro h
    simp only [runBatchStep, emergencySave]
    rw [if_pos h]
  · intro h
    simp only [runBatchStep, emergencySave]
    rw [if_neg (fun hcon => h hcon.1)]

/-- C3 witness: a step landing exactly on 100 fires the checkpoint save
with the full accumulated list and the count in the filename. -/
theorem batch_step_save_spec_witness :
    (runBatchStep (List.replicate 97 dummyInfluencer) (List.replicate 3 dummyInfluencer)).2.1 =
      some ("checkpoint_" ++
          toString (List.replicate 97 dummyInfluencer ++ List.replicate 3 dummyInfluencer).length ++
          "_influencers.csv",
        List.replicate 97 dummyInfluencer ++ List.replicate 3 dummyInfluencer) := by
  apply (batch_step_save_spec (List.replicate 97 dummyInfluencer)
    (List.replicate 3 dummyInfluencer)).1
  constructor <;> simp [checkpoint_interval]

/-- C7: with threshold 1000 and a search yielding three summaries of
which exactly one has a statistics lookup reporting 500 subscribers (the
other two lookups succeed at or above the threshold), the batch produces
exactly two records — the below-threshold summary is discarded by the
caller-side check in `scrape_influencers_batch`, not by the collector —
and every record's category is the mapping lookup for the search term,
"Other" when no keyword matches. -/
theorem batch_filters_below_threshold (statsOf : String → Option ChannelStats)
    (nowStr category city : String) (a b c : ChannelSummary)
    (sa sb sc : ChannelStats)
    (ha : statsOf a.channelId = some sa) (hsa : 1000 ≤ sa.subscriberCount)
    (hb : statsOf b.channelId = some sb) (hsb : sb.subscriberCount = 500)
    (hc : statsOf c.channelId = some sc) (hsc : 1000 ≤ sc.subscriberCount) :
    (scrape_influencers_batch statsOf nowStr category city [a, b, c] 1000).length = 2 ∧
    ∀ r ∈ scrape_influencers_batch statsOf nowStr category city [a, b, c] 1000,
      r.category = (get_category_mapping.lookup category).getD "Other" := by
  have hna : ¬ sa.subscriberCount < 1000 := not_lt.mpr hsa
  have hnc : ¬ sc.subscriberCount < 1000 := not_lt.mpr hsc
  have hyb : sb.subscriberCount < 1000 := by
    rw [hsb]
    norm_num
  constructor
  · simp [scrape_influencers_batch, ha, hb, hc, hna, hnc, hyb]
  · intro r hr
    have hlist : scrape_influencers_batch statsOf nowStr category city [a, b, c] 1000 =
        [buildInfluencer nowStr category city a sa, buildInfluencer nowStr category city c sc] := by
      simp [scrape_influencers_batch, ha, hb, hc, hna, hnc, hyb]
    rw [hlist] at hr
    rcases List.mem_cons.mp hr with hr1 | hr1
    · rw [hr1]
      rfl
    · rcases List.mem_cons.mp hr1 with hr2 | hr2
      · rw [hr2]
        rfl
      · exact absurd hr2 (List.not_mem_nil r)

/-- Statistics oracle for the C7 witness: channel "b" reports 500
subscribers, the others are above the threshold. -/
def demoStats : String → Option ChannelStats := fun cid =>
  if cid = "a" then some ⟨"A", "", "", 5000, 10, 1⟩
  else if cid = "b" then some ⟨"B", "", "", 500, 10, 1⟩
  else if cid = "c" then some ⟨"C", "", "", 2000, 10, 1⟩
  else none

/-- C7 witness: the theorem applied to a concrete ("Mumbai", "tech")
search with three summaries. -/
theorem batch_filters_below_threshold_witness :
    (scrape_influencers_batch demoStats "now" "tech" "Mumbai"
      [⟨"a", "A", "", "", "q"⟩, ⟨"b", "B", "", "", "q"⟩, ⟨"c", "C", "", "", "q"⟩]
      1000).length = 2 :=
  (batch_filters_below_threshold demoStats "now" "tech" "Mumbai"
    ⟨"a", "A", "", "", "q"⟩ ⟨"b", "B", "", "", "q"⟩ ⟨"c", "C", "", "", "q"⟩
    ⟨"A", "", "", 5000, 10, 1⟩ ⟨"B", "", "", 500, 10, 1⟩ ⟨"C", "", "", 2000, 10, 1⟩
    (by decide) (by decide) (by decide) (by decide) (by decide) (by decide)).1

/-- C9: for a non-empty pool, every Key Pool operation preserves the
cursor invariant 0 ≤ cursor < N (the lower bound holds by the Nat type):
acquire, the cursor advance after a request attempt, markExceeded, and a
complete `_make_api_request` call with any response script. -/
theorem cursor_invariant_preserved (s : PoolState)
    (h0 : 0 < s.usage.length) (hc : s.current_key_index < s.usage.length) :
    ((getNextAvailableKey s).2.current_key_index < (getNextAvailableKey s).2.usage.length) ∧
    ((advanceCursor s).current_key_index < (advanceCursor s).usage.length) ∧
    (∀ i, (markExceeded i s).current_key_index < (markExceeded i s).usage.length) ∧
    (∀ script, (makeApiRequest script s).2.1.current_key_index <
      (makeApiRequest script s).2.1.usage.length) := by
  refine ⟨getNextAvailableKey_cursor_lt s h0 hc, ?_, ?_, ?_⟩
  · simp only [advanceCursor]
    exact Nat.mod_lt _ h0
  · intro i
    rw [markExceeded_cursor, markExceeded_length]
    exact hc
  · intro script
    exact (makeApiRequestAux_inv max_retries script s h0 hc).2

/-- C9 witness: the invariant after a full `_make_api_request` call on a
two-key pool whose first attempt receives an HTTP 403. -/
theorem cursor_invariant_preserved_witness :
    (makeApiRequest [ApiResponse.forbidden]
        (⟨[⟨0, false, 0⟩, ⟨0, false, 0⟩], 0, 0⟩ : PoolState)).2.1.current_key_index <
      (makeApiRequest [ApiResponse.forbidden]
        (⟨[⟨0, false, 0⟩, ⟨0, false, 0⟩], 0, 0⟩ : PoolState)).2.1.usage.length :=
  (cursor_invariant_preserved ⟨[⟨0, false, 0⟩, ⟨0, false, 0⟩], 0, 0⟩
    (by decide) (by decide)).2.2.2 [ApiResponse.forbidden]

/-- C2 (counterexample): a single-credential pool receives an HTTP 200
whose payload embeds a quota-violation error.  The call does not succeed
(after marking the key and exhausting the pool it returns `None`), yet
the request counter of the credential used was incremented to 1:
youtube_scraper.py line 83 increments on every 200 response, before the
payload is inspected at lines 86-92. -/
theorem recordUse_counterexample :
    (makeApiRequest [ApiResponse.ok true 7] (⟨[⟨0, false, 0⟩], 0, 0⟩ : PoolState)).1 = none ∧
    ((makeApiRequest [ApiResponse.ok true 7]
        (⟨[⟨0, false, 0⟩], 0, 0⟩ : PoolState)).2.1.usage.map KeyState.requests) = [1] := by
  refine ⟨by decide, by decide⟩

/-- C2 (amended): within one attempt of `_make_api_request`, the request
counter of the credential used increases by one exactly when the HTTP
status is 200 — including 200 responses whose payload embeds a
quota-violation error — and is unchanged on a 403, another status, or a
transport error. -/
theorem recordUse_on_http200 (i : Nat) (r : ApiResponse) (s : PoolState) (ks : KeyState)
    (h : s.usage[i]? = some ks) :
    ((processResponse i r s).2.usage[i]?).map KeyState.requests =
      some (ks.requests + (if r.is200 then 1 else 0)) := by
  cases r with
  | ok q p =>
    have h1 : (recordUse i s).usage[i]? = some { ks with requests := ks.requests + 1 } := by
      rw [recordUse_getElem, if_pos rfl, h]
      rfl
    by_cases hq : q
    · have h2 : (markExceeded i (recordUse i s)).usage[i]? =
          some (⟨ks.requests + 1, true, ks.last_reset⟩ : KeyState) := by
        rw [markExceeded_getElem, if_pos rfl, h1]
        rfl
      simp [processResponse, hq, h2, ApiResponse.is200]
    · simp [processResponse, hq, h1, ApiResponse.is200]
  | forbidden =>
    have h2 : (markExceeded i s).usage[i]? = some { ks with quota_exceeded := true } := by
      rw [markExceeded_getElem, if_pos rfl, h]
      rfl
    simp [processResponse, h2, ApiResponse.is200]
  | otherStatus => simp [processResponse, h, ApiResponse.is200]
  | transportError => simp [processResponse, h, ApiResponse.is200]

/-- C2 witness: the amended theorem applied to a 200 response embedding a
quota error, at a key whose counter stands at 4. -/
theorem recordUse_on_http200_witness :
    ((processResponse 0 (ApiResponse.ok true 7)
        (⟨[⟨4, false, 2⟩], 0, 9⟩ : PoolState)).2.usage[0]?).map KeyState.requests =
      some (4 + (if (ApiResponse.ok true 7).is200 then 1 else 0)) :=
  recordUse_on_http200 0 (ApiResponse.ok true 7) ⟨[⟨4, false, 2⟩], 0, 9⟩ ⟨4, false, 2⟩ (by decide)

/-- C5: for any pool of N ≥ 1 credentials, after `markExceeded` has been
applied to every one of them and no cool-down time has elapsed, acquire
returns `None`, and the next `_make_api_request` call fails at once — the
`None` from the acquire step at youtube_scraper.py lines 70-72 — leaving
the response script untouched, i.e. without issuing any network request. -/
theorem pool_exhausted_fails_without_request (s : PoolState) (script : List ApiResponse)
    (hN : 1 ≤ s.usage.length)
    (hcool : ∀ ks ∈ s.usage, s.now - ks.last_reset ≤ quota_reset_seconds) :
    (getNextAvailableKey (markAllExceeded s)).1 = none ∧
    (makeApiRequest script (markAllExceeded s)).1 = none ∧
    (makeApiRequest script (markAllExceeded s)).2.2 = script := by
  have hspec := markAllExceeded_spec s
  have hall : ∀ ks ∈ (markAllExceeded s).usage, ks.quota_exceeded = true ∧
      (markAllExceeded s).now - ks.last_reset ≤ quota_reset_seconds := by
    intro ks hks
    rcases hspec.2 ks hks with ⟨hflag, ks₀, hks₀, hlr⟩
    refine ⟨hflag, ?_⟩
    rw [hspec.1, hlr]
    exact hcool ks₀ hks₀
  have hacq := getNextKeyAux_all_exceeded (markAllExceeded s).usage.length
    (markAllExceeded s) hall
  have hacq1 : (getNextAvailableKey (markAllExceeded s)).1 = none := hacq.1
  have hkey : ∃ s₁, getNextAvailableKey (markAllExceeded s) = (none, s₁) := by
    rcases hres : getNextAvailableKey (markAllExceeded s) with ⟨res, s₁⟩
    cases res with
    | none => exact ⟨s₁, rfl⟩
    | some i =>
      rw [hres] at hacq1
      exact absurd hacq1 (by simp)
  rcases hkey with ⟨s₁, hres⟩
  have hmk : makeApiRequest script (markAllExceeded s) = (none, s₁, script) := by
    unfold makeApiRequest
    rw [show max_retries = 2 + 1 from rfl]
    exact makeApiRequestAux_none 2 script _ s₁ hres
  exact ⟨hacq1, by rw [hmk], by rw [hmk]⟩

/-- C5 witness: a one-credential pool, freshly created and then fully
marked, with a non-empty response script. -/
theorem pool_exhausted_fails_without_request_witness :
    (getNextAvailableKey (markAllExceeded (⟨[⟨0, false, 0⟩], 0, 0⟩ : PoolState))).1 = none ∧
    (makeApiRequest [ApiResponse.ok false 7]
        (markAllExceeded (⟨[⟨0, false, 0⟩], 0, 0⟩ : PoolState))).1 = none ∧
    (makeApiRequest [ApiResponse.ok false 7]
        (markAllExceeded (⟨[⟨0, false, 0⟩], 0, 0⟩ : PoolState))).2.2 =
      [ApiResponse.ok false 7] :=
  pool_exhausted_fails_without_request ⟨[⟨0, false, 0⟩], 0, 0⟩ [ApiResponse.ok false 7]
    (by decide) (by decide)

/-- Acquire on a state whose cursor key is flagged, after the clock moved
past the cool-down: the key is handed out again, reset. -/
theorem acquire_after_cooldown (M : PoolState) (ks : KeyState) (tNow : Nat)
    (hg : M.usage[M.current_key_index]? = some ks)
    (hq : ks.quota_exceeded = true)
    (hcool : quota_reset_seconds < tNow - ks.last_reset) :
    (getNextAvailableKey { M with now := tNow }).1 = some M.current_key_index ∧
    (getNextAvailableKey { M with now := tNow }).2.usage[M.current_key_index]? =
      some (⟨0, false, tNow⟩ : KeyState) := by
  have hcurlt : M.current_key_index < M.usage.length := (List.getElem?_eq_some.mp hg).1
  obtain ⟨m, hm⟩ : ∃ m, M.usage.length = m + 1 := ⟨M.usage.length - 1, by omega⟩
  have hmain := getNextKeyAux_at_cooled m ({ M with now := tNow } : PoolState) ks hg hq hcool
  constructor
  · show (getNextKeyAux M.usage.length { M with now := tNow }).1 = some M.current_key_index
    rw [hm, hmain]
  · show (getNextKeyAux M.usage.length
        { M with now := tNow }).2.usage[M.current_key_index]? =
      some (⟨0, false, tNow⟩ : KeyState)
    rw [hm, hmain]
    exact List.getElem?_set_self hcurlt

/-- C6: mark the credential at the cursor exceeded, then advance the
clock beyond the one-hour cool-down window (marking leaves the cursor and
the usage list length unchanged, so the state after both steps is the
marked usage list with the cursor still in place and the new clock); the
next acquire returns that credential again with its quota flag cleared,
its request counter reset to zero, and its timestamp restamped to the
current clock (youtube_scraper.py lines 46-55). -/
theorem cooldown_allows_reacquire (s : PoolState) (ks : KeyState) (tNow : Nat)
    (hks : s.usage[s.current_key_index]? = some ks)
    (hpast : ks.last_reset ≤ s.now)
    (hadv : s.now + quota_reset_seconds < tNow) :
    (getNextAvailableKey
        ⟨(markExceeded s.current_key_index s).usage, s.current_key_index, tNow⟩).1 =
      some s.current_key_index ∧
    (getNextAvailableKey
        ⟨(markExceeded s.current_key_index s).usage, s.current_key_index,
          tNow⟩).2.usage[s.current_key_index]? =
      some (⟨0, false, tNow⟩ : KeyState) := by
  have hget : (markExceeded s.current_key_index s).usage[(markExceeded
      s.current_key_index s).current_key_index]? =
      some { ks with quota_exceeded := true } := by
    rw [markExceeded_cursor, markExceeded_getElem, if_pos rfl, hks]
    rfl
  have h := acquire_after_cooldown (markExceeded s.current_key_index s)
    { ks with quota_exceeded := true } tNow hget rfl
    (by show quota_reset_seconds < tNow - ks.last_reset; omega)
  rw [markExceeded_cursor] at h
  exact h

/-- C6 witness: the theorem applied to a one-key pool marked at clock 200
and re-scanned at clock 4000, past the 3600-second window. -/
theorem cooldown_allows_reacquire_witness :
    (getNextAvailableKey
        ⟨(markExceeded 0 (⟨[⟨5, false, 100⟩], 0, 200⟩ : PoolState)).usage, 0, 4000⟩).1 =
      some 0 ∧
    (getNextAvailableKey
        ⟨(markExceeded 0 (⟨[⟨5, false, 100⟩], 0, 200⟩ : PoolState)).usage, 0,
          4000⟩).2.usage[0]? =
      some (⟨0, false, 4000⟩ : KeyState) :=
  cooldown_allows_reacquire ⟨[⟨5, false, 100⟩], 0, 200⟩ ⟨5, false, 100⟩ 4000
    (by decide) (by decide) (by decide)

/-- Two scan steps: skip a flagged, still-cooling key at the cursor, then
hand out the clear key right after it. -/
theorem getNextKeyAux_skip_then_clear (f : Nat) (M : PoolState) (ks knext : KeyState)
    (hg : M.usage[M.current_key_index]? = some ks)
    (hq : ks.quota_exceeded = true)
    (hcool : M.now - ks.last_reset ≤ quota_reset_seconds)
    (hg2 : M.usage[(M.current_key_index + 1) % M.usage.length]? = some knext)
    (hq2 : knext.quota_exceeded = false) :
    getNextKeyAux (f + 2) M =
      (some ((M.current_key_index + 1) % M.usage.length),
        { M with current_key_index := (M.current_key_index + 1) % M.usage.length }) := by
  rw [show f + 2 = (f + 1) + 1 from rfl, getNextKeyAux_skip (f + 1) M ks hg hq hcool]
  exact getNextKeyAux_at_clear f
    { M with current_key_index := (M.current_key_index + 1) % M.usage.length } knext hg2 hq2

/-- Acquire on a pool of at least two keys whose cursor key is flagged and
still cooling while the next key is clear: the flagged key is skipped and
the cursor advances to the next key, which is returned. -/
theorem acquire_skips_flagged (M : PoolState) (ks knext : KeyState)
    (hN : 2 ≤ M.usage.length)
    (hg : M.usage[M.current_key_index]? = some ks)
    (hq : ks.quota_exceeded = true)
    (hcool : M.now - ks.last_reset ≤ quota_reset_seconds)
    (hg2 : M.usage[(M.current_key_index + 1) % M.usage.length]? = some knext)
    (hq2 : knext.quota_exceeded = false) :
    getNextAvailableKey M =
      (some ((M.current_key_index + 1) % M.usage.length),
        { M with current_key_index := (M.current_key_index + 1) % M.usage.length }) := by
  obtain ⟨f, hf⟩ : ∃ f, M.usage.length = f + 2 := ⟨M.usage.length - 2, by omega⟩
  show getNextKeyAux M.usage.length M = _
  conv_lhs => rw [hf]
  exact getNextKeyAux_skip_then_clear f M ks knext hg hq hcool hg2 hq2

/-- C4 (counterexample): the claimed cursor advance does not hold for
every 403.  `markExceeded` never restamps `last_reset` (youtube_scraper.py
line 98 sets only the flag), so a 403 on a credential whose `last_reset`
is already more than an hour old — here a two-key pool at clock 4000 with
key 0 last reset at 0 — marks key 0, but the retry's acquire finds the
flagged key past its window, clears the flag, zeroes its counter, and
returns the very same key with the cursor still at 0 (lines 46-55): the
executor retries on the same credential and never advances the cursor,
as the final state shows (key 0 carries the successful request, key 1 was
never used).  The last two conjuncts isolate the acquire step right after
the mark. -/
theorem quota403_stale_counterexample :
    makeApiRequest [ApiResponse.forbidden, ApiResponse.ok false 9]
        (⟨[⟨3, false, 0⟩, ⟨0, false, 0⟩], 0, 4000⟩ : PoolState) =
      (some 9, ⟨[⟨1, false, 4000⟩, ⟨0, false, 0⟩], 0, 4000⟩, []) ∧
    (getNextAvailableKey
        (markExceeded 0 (⟨[⟨3, false, 0⟩, ⟨0, false, 0⟩], 0, 4000⟩ : PoolState))).1 =
      some 0 ∧
    (getNextAvailableKey
        (markExceeded 0 (⟨[⟨3, false, 0⟩, ⟨0, false, 0⟩], 0, 4000⟩ : PoolState))).2.current_key_index =
      0 := by
  refine ⟨by decide, by decide, by decide⟩

/-- C4 (amended): when an attempt of `_make_api_request` receives an HTTP
403 (classified as quota violation), the executor (a) replaces the whole
call by a retry on the state with the used credential flagged — one
attempt of the budget consumed, and the 403 itself contributing nothing
to the result, so the quota violation is never surfaced as a distinct
error past the executor, whose only outcomes are a payload or `None` —
(b) marks exactly the used credential's quota flag, keeping its counter
and timestamp, and (c) provided the used credential's last-reset
timestamp is still within the cool-down window (the `hcool` hypothesis:
`markExceeded` does not restamp it), the retry's acquire skips the
flagged credential and advances the cursor to the next one, which it
returns. -/
theorem quota403_rotation (s : PoolState) (rest : List ApiResponse) (f : Nat)
    (ks knext : KeyState)
    (hN : 2 ≤ s.usage.length)
    (hks : s.usage[s.current_key_index]? = some ks)
    (hclear : ks.quota_exceeded = false)
    (hcool : s.now - ks.last_reset ≤ quota_reset_seconds)
    (hknext : s.usage[(s.current_key_index + 1) % s.usage.length]? = some knext)
    (hnclear : knext.quota_exceeded = false) :
    makeApiRequestAux (f + 1) (ApiResponse.forbidden :: rest) s =
      makeApiRequestAux f rest (markExceeded s.current_key_index s) ∧
    (markExceeded s.current_key_index s).usage[s.current_key_index]? =
      some (⟨ks.requests, true, ks.last_reset⟩ : KeyState) ∧
    (getNextAvailableKey (markExceeded s.current_key_index s)).1 =
      some ((s.current_key_index + 1) % s.usage.length) ∧
    (getNextAvailableKey (markExceeded s.current_key_index s)).2.current_key_index =
      (s.current_key_index + 1) % s.usage.length := by
  have hcurlt : s.current_key_index < s.usage.length := (List.getElem?_eq_some.mp hks).1
  have hne : s.current_key_index ≠ (s.current_key_index + 1) % s.usage.length := by
    rcases Nat.lt_or_ge (s.current_key_index + 1) s.usage.length with hlt | hge
    · rw [Nat.mod_eq_of_lt hlt]
      omega
    · have hc1 : s.current_key_index + 1 = s.usage.length := by omega
      rw [hc1, Nat.mod_self]
      omega
  have hstep : makeApiRequestAux (f + 1) (ApiResponse.forbidden :: rest) s =
      makeApiRequestAux f rest (markExceeded s.current_key_index s) :=
    makeApiRequestAux_quotaRetry f s s.current_key_index s ApiResponse.forbidden rest
      (markExceeded s.current_key_index s) (acquire_at_clear s ks hks hclear) rfl
  have hmarked : (markExceeded s.current_key_index s).usage[s.current_key_index]? =
      some (⟨ks.requests, true, ks.last_reset⟩ : KeyState) := by
    rw [markExceeded_getElem, if_pos rfl, hks]
    rfl
  have hg : (markExceeded s.current_key_index s).usage[(markExceeded
      s.current_key_index s).current_key_index]? =
      some (⟨ks.requests, true, ks.last_reset⟩ : KeyState) := by
    rw [markExceeded_cursor]
    exact hmarked
  have hg2 : (markExceeded s.current_key_index s).usage[((markExceeded
      s.current_key_index s).current_key_index + 1) %
        (markExceeded s.current_key_index s).usage.length]? = some knext := by
    rw [markExceeded_cursor, markExceeded_length, markExceeded_getElem,
      if_neg hne]
    exact hknext
  have hcool' : (markExceeded s.current_key_index s).now -
      (⟨ks.requests, true, ks.last_reset⟩ : KeyState).last_reset ≤ quota_reset_seconds := by
    rw [markExceeded_now]
    exact hcool
  have h := acquire_skips_flagged (markExceeded s.current_key_index s)
    ⟨ks.requests, true, ks.last_reset⟩ knext
    (by rw [markExceeded_length]; exact hN) hg rfl hcool' hg2 hnclear
  rw [markExceeded_cursor, markExceeded_length] at h
  refine ⟨hstep, hmarked, ?_, ?_⟩
  · rw [h]
  · rw [h]

/-- C4 witness: the theorem applied to a fresh two-key pool with the
cursor at key 0, a 403 response, and one remaining scripted response. -/
theorem quota403_rotation_witness :
    makeApiRequestAux (2 + 1) [ApiResponse.forbidden, ApiResponse.ok false 9]
        (⟨[⟨0, false, 0⟩, ⟨0, false, 0⟩], 0, 0⟩ : PoolState) =
      makeApiRequestAux 2 [ApiResponse.ok false 9]
        (markExceeded 0 (⟨[⟨0, false, 0⟩, ⟨0, false, 0⟩], 0, 0⟩ : PoolState)) ∧
    (markExceeded 0 (⟨[⟨0, false, 0⟩, ⟨0, false, 0⟩], 0, 0⟩ : PoolState)).usage[0]? =
      some (⟨0, true, 0⟩ : KeyState) ∧
    (getNextAvailableKey
        (markExceeded 0 (⟨[⟨0, false, 0⟩, ⟨0, false, 0⟩], 0, 0⟩ : PoolState))).1 =
      some ((0 + 1) % 2) ∧
    (getNextAvailableKey
        (markExceeded 0 (⟨[⟨0, false, 0⟩, ⟨0, false, 0⟩], 0, 0⟩ : PoolState))).2.current_key_index =
      (0 + 1) % 2 :=
  quota403_rotation ⟨[⟨0, false, 0⟩, ⟨0, false, 0⟩], 0, 0⟩ [ApiResponse.ok false 9] 2
    ⟨0, false, 0⟩ ⟨0, false, 0⟩ (by decide) (by decide) (by decide) (by decide)
    (by decide) (by decide)

/-- C8: whenever the latest-checkpoint query returns a file, that file is
one of the store's filenames, its encoded count is the returned count,
and this count is at least the count encoded in every checkpoint filename
of the store — numeric comparison of the embedded count, independent of
lexicographic filename order. -/
theorem find_latest_checkpoint_max (files : List (List Char)) (name : List Char) (c : Int)
    (h : find_latest_checkpoint files = some (name, c)) :
    name ∈ files ∧ checkpointCount name = some c ∧
    ∀ f ∈ files, ∀ cf : Int, checkpointCount f = some cf → cf ≤ c := by
  unfold find_latest_checkpoint at h
  rcases hcl : files.filterMap (fun f => (checkpointCount f).map (fun c => (c, f))) with
    _ | ⟨x, xs⟩
  · rw [hcl] at h
    simp at h
  · rw [hcl] at h
    have h' : some ((xs.foldl (fun acc y => if acc.1 < y.1 then y else acc) x).2,
        (xs.foldl (fun acc y => if acc.1 < y.1 then y else acc) x).1) = some (name, c) := h
    rcases hLdef : xs.foldl (fun acc y => if acc.1 < y.1 then y else acc) x with ⟨lc, lf⟩
    rw [hLdef] at h'
    simp only [Option.some.injEq, Prod.mk.injEq] at h'
    obtain ⟨hname, hcval⟩ := h'
    subst hname
    subst hcval
    have hmem := foldl_pick_mem x xs
    rw [hLdef] at hmem
    have hge := foldl_pick_ge x xs
    rw [hLdef] at hge
    have hmemcps : (lc, lf) ∈
        files.filterMap (fun f => (checkpointCount f).map (fun c => (c, f))) := by
      rw [hcl]
      exact hmem
    rcases List.mem_filterMap.mp hmemcps with ⟨f, hf, hfeq⟩
    rcases Option.map_eq_some'.mp hfeq with ⟨cf, hcf, hpair⟩
    have hfname : f = lf := (Prod.mk.injEq _ _ _ _ ▸ hpair).2
    have hccf : cf = lc := (Prod.mk.injEq _ _ _ _ ▸ hpair).1
    refine ⟨hfname ▸ hf, ?_, ?_⟩
    · rw [← hfname, hcf, hccf]
    · intro g hg cg hcg
      have hin : (cg, g) ∈
          files.filterMap (fun f => (checkpointCount f).map (fun c => (c, f))) :=
        List.mem_filterMap.mpr ⟨g, hg, by rw [hcg]; rfl⟩
      rw [hcl] at hin
      rcases List.mem_cons.mp hin with heq | hin'
      · have hx : cg = x.1 := by rw [← heq]
        rw [hx]
        exact hge.1
      · exact hge.2 (cg, g) hin'

/-- C8 witness: on a store holding checkpoint_100 and checkpoint_1000 the
query selects the numerically larger count 1000, bounding every encoded
count, even though lexicographically checkpoint_1000... sorts before
checkpoint_100.... -/
theorem find_latest_checkpoint_max_witness :
    ("checkpoint_1000_influencers.csv".toList ∈
      ["checkpoint_100_influencers.csv".toList, "checkpoint_1000_influencers.csv".toList]) ∧
    checkpointCount "checkpoint_1000_influencers.csv".toList = some 1000 ∧
    "checkpoint_1000_influencers.csv".toList < "checkpoint_100_influencers.csv".toList := by
  have h := find_latest_checkpoint_max
    ["checkpoint_100_influencers.csv".toList, "checkpoint_1000_influencers.csv".toList]
    "checkpoint_1000_influencers.csv".toList 1000 (by decide)
  exact ⟨h.1, h.2.1, by decide⟩
